import Mathlib

/-
Verification of the dependency-installer script `scripts/install_deps.py`.

The script is shallowly embedded as pure Lean functions.  External
collaborators (environment probes, configuration lookups, the command
runner, the Windows Qt/Choco helpers and the macOS helper) are modelled
as inputs: an `Env` record of probe answers and a `Config` record of
lookup results.  Each platform strategy returns the list of observable
effects it performs, in order, together with an `Outcome` describing how
the run ends (normal return, raised exception, or `sys.exit()`).
-/

namespace InstallDeps

/-! ## Python string primitives

The Linux strategy uses Python substring operations:
`"sudo" in command`, `command.replace("sudo ", "")` and `command.strip()`.
They are embedded over `List Char` so that they compute by kernel
reduction.  `removeAll` mirrors `str.replace(pat, "")`: a left-to-right
scan removing non-overlapping occurrences, never rescanning text that
precedes the removal point.
-/

/-- Does `s` start with `pat`? (`str.startswith`). -/
def listStartsWith : List Char → List Char → Bool
  | _, [] => true
  | [], _ :: _ => false
  | c :: cs, p :: ps => c == p && listStartsWith cs ps

/-- Does `pat` occur as a contiguous substring of `s`? (Python `pat in s`). -/
def containsSub (s pat : List Char) : Bool :=
  match s with
  | [] => listStartsWith [] pat
  | _ :: cs => listStartsWith s pat || containsSub cs pat

/-- If `pat` is a prefix of `s`, return the remainder of `s`, else `none`. -/
def dropPat : List Char → List Char → Option (List Char)
  | s, [] => some s
  | [], _ :: _ => none
  | c :: cs, p :: ps => if c == p then dropPat cs ps else none

/-- Fuelled worker for `removeAll`; each step consumes at least one
character of `s` whenever `pat` is non-empty, so `s.length` fuel is enough. -/
def removeAllFuel : Nat → List Char → List Char → List Char
  | 0, s, _ => s
  | _ + 1, [], _ => []
  | fuel + 1, c :: cs, pat =>
    match dropPat (c :: cs) pat with
    | some rest => removeAllFuel fuel rest pat
    | none => c :: removeAllFuel fuel cs pat

/-- Remove every (left-to-right, non-overlapping) occurrence of `pat`
from `s`: Python `s.replace(pat, "")`. -/
def removeAll (s pat : List Char) : List Char :=
  removeAllFuel s.length s pat

/-- The whitespace characters stripped by Python `str.strip()`. -/
def isPySpace (c : Char) : Bool :=
  c == ' ' || c == '\t' || c == '\n' || c == '\r' || c == '\x0b' || c == '\x0c'

/-- Python `s.strip()`: drop leading and trailing whitespace. -/
def trimChars (s : List Char) : List Char :=
  ((s.dropWhile isPySpace).reverse.dropWhile isPySpace).reverse

/-- Python `sub in s` on `String`s. -/
def pyContains (s sub : String) : Bool :=
  containsSub s.data sub.data

/-! ## Data model -/

/-- Parameters returned by `Config.get_qt_config()` and splatted into
`windows.WindowsQt(...)` (version, install root, architecture). -/
structure QtConfig where
  version : String
  install_root : String
  arch : String
deriving Repr, DecidableEq

/-- Result of `Config.get_choco_ci_config()`: the `edit_config` mapping
and the `skip_packages` list used by `choco.remove_from_config`. -/
structure ChocoCiConfig where
  edit_config : List (String × String)
  skip_packages : List String
deriving Repr, DecidableEq

/-- The configuration lookups `install_deps.py` performs, modelled as an
already-loaded record of results.  `linux_deps_command` returns `none`
when the distro has no configured command, in which case the real
`Config.get_linux_deps_command` raises before any command runs. -/
structure Config where
  qt_config : QtConfig
  deps_command : String
  linux_deps_command : String → Option String
  os_deps_value : String → String
  os_value : String → String
  choco_ci_config : ChocoCiConfig

/-- Host-environment probe answers consumed by the script:
`env.is_windows/is_mac/is_linux`, `env.is_running_in_ci`,
`windows.is_admin`, `env.get_linux_distro`, `cmd_utils.has_command`,
and the result of `WindowsQt.get_install_dir()`. -/
structure Env where
  is_windows : Bool
  is_mac : Bool
  is_linux : Bool
  is_running_in_ci : Bool
  is_admin : Bool
  linux_distro : Option String
  has_command : String → Bool
  qt_install_dir : Option String

/-- Observable effects of a run, in program order: configuration
lookups, console prints, helper-module calls and shell commands. -/
inductive Event where
  | print (msg : String)
  | lookup_qt_config
  | lookup_deps_command
  | lookup_linux_deps_command (distro : String)
  | lookup_os_deps_value (key : String)
  | lookup_os_value (key : String)
  | lookup_choco_ci_config
  | qt_get_install_dir
  | qt_install
  | qt_set_env_vars
  | choco_config_ci_cache
  | choco_remove_from_config (edits : List (String × String)) (skips : List String)
  | choco_install (cmd : String) (ci : Bool)
  | mac_set_cmake_prefix_env_var (cmd : String)
  | relaunch_as_admin
  | run (cmd : String) (check : Bool)
deriving Repr, DecidableEq

/-- How a strategy run ends: normal return, a raised exception
(`RuntimeError`, config errors, ...), or `sys.exit()` (a `SystemExit`,
which is not an `Exception`). -/
inductive Outcome where
  | ok
  | error (msg : String)
  | exited
deriving Repr, DecidableEq

namespace Dependencies

/-- `Dependencies.windows`: admin check (relaunch and `sys.exit()` when
not elevated), conditional Qt install-or-skip block with optional
permanent env vars and toolkit-only early return, then the Choco
package-manager steps with CI-only cache and skip-list configuration. -/
def windows (cfg : Config) (e : Env) (only : Option String) : List Event × Outcome :=
  if e.is_admin = false then
    ([Event.relaunch_as_admin], Outcome.exited)
  else
    let qtEvents : List Event :=
      if e.is_running_in_ci = false ∨ only = some "qt" then
        [Event.lookup_qt_config, Event.qt_get_install_dir]
        ++ (match e.qt_install_dir with
            | some d =>
              if d ≠ "" then
                [Event.print ("Skipping Qt, already installed at: " ++ d)]
              else
                [Event.qt_install]
            | none => [Event.qt_install])
        ++ (if e.is_running_in_ci = false then [Event.qt_set_env_vars] else [])
      else []
    -- the `return` sits inside the conditional block, but its guard
    -- `only_qt` already implies the guard of the block.
    if only = some "qt" then
      (qtEvents, Outcome.ok)
    else
      let chocoEvents : List Event :=
        if e.is_running_in_ci then
          [Event.choco_config_ci_cache, Event.lookup_choco_ci_config,
           Event.choco_remove_from_config cfg.choco_ci_config.edit_config
             cfg.choco_ci_config.skip_packages]
        else []
      (qtEvents ++ chocoEvents
        ++ [Event.lookup_deps_command,
            Event.choco_install cfg.deps_command e.is_running_in_ci],
       Outcome.ok)

/-- `Dependencies.mac`: run the generic command strictly, then (outside
CI) export the CMake prefix from the `qt-prefix-command` helper. -/
def mac (cfg : Config) (e : Env) : List Event × Outcome :=
  let base : List Event :=
    [Event.lookup_os_deps_value "command",
     Event.run (cfg.os_deps_value "command") true]
  if e.is_running_in_ci = false then
    (base ++ [Event.lookup_os_value "qt-prefix-command",
              Event.mac_set_cmake_prefix_env_var (cfg.os_value "qt-prefix-command")],
     Outcome.ok)
  else
    (base, Outcome.ok)

/-- The console notice printed before sudo-stripping. -/
def sudoNotice : String :=
  "The \x27sudo\x27 command was not found, stripping sudo from command"

/-- `command.replace("sudo ", "").strip()`. -/
def stripSudo (command : String) : String :=
  String.mk (trimChars (removeAll command.data ("sudo ").data))

/-- `Dependencies.linux`: detect the distro (fatal if unknown), resolve
the distro command (fatal if unconfigured), strip `"sudo "` when the
command mentions sudo but the host lacks the executable, then run
non-strictly (`check=False`). -/
def linux (cfg : Config) (e : Env) : List Event × Outcome :=
  match e.linux_distro with
  | none => ([], Outcome.error "Unable to detect Linux distro")
  | some distro =>
    match cfg.linux_deps_command distro with
    | none => ([Event.lookup_linux_deps_command distro],
               Outcome.error "UnsupportedDistroError")
    | some command =>
      if pyContains command "sudo" && !e.has_command "sudo" then
        ([Event.lookup_linux_deps_command distro,
          Event.print sudoNotice,
          Event.run (stripSudo command) false], Outcome.ok)
      else
        ([Event.lookup_linux_deps_command distro,
          Event.run command false], Outcome.ok)

/-- `Dependencies.install`: dispatch on the probed OS family; an
unrecognized platform raises `RuntimeError`. -/
def install (cfg : Config) (e : Env) (only : Option String) : List Event × Outcome :=
  if e.is_windows then windows cfg e only
  else if e.is_mac then mac cfg e
  else if e.is_linux then linux cfg e
  else ([], Outcome.error "Unsupported platform")

end Dependencies

/-- Result of one run of `main`: the events performed, whether a
traceback was printed, whether the pause prompt was reached, and the
process exit code. -/
structure MainResult where
  events : List Event
  printed_traceback : Bool
  paused : Bool
  exit_code : Nat
deriving Repr, DecidableEq

/-- `main`: build the `Dependencies` session (which prints a notice in
CI), run `install` inside `try/except Exception`, optionally pause, and
exit 1 on caught error.  `sys.exit()` raises `SystemExit`, which is not
an `Exception`: it escapes the handler, skips the pause prompt, and
terminates the process with exit code 0. -/
def main (cfg : Config) (e : Env) (pause_on_exit : Bool) (only : Option String) : MainResult :=
  let initEvents : List Event :=
    if e.is_running_in_ci then [Event.print "CI environment detected"] else []
  let r := Dependencies.install cfg e only
  match r.2 with
  | Outcome.exited =>
    { events := initEvents ++ r.1, printed_traceback := false,
      paused := false, exit_code := 0 }
  | Outcome.error _ =>
    { events := initEvents ++ r.1, printed_traceback := true,
      paused := pause_on_exit, exit_code := 1 }
  | Outcome.ok =>
    { events := initEvents ++ r.1, printed_traceback := false,
      paused := pause_on_exit, exit_code := 0 }

/-! ## Event classifiers -/

/-- Events belonging to the Windows package-manager (Choco) phase,
including the resolution of the generic deps command. -/
def isPackageManagerEvent : Event → Bool
  | Event.choco_config_ci_cache => true
  | Event.lookup_choco_ci_config => true
  | Event.choco_remove_from_config _ _ => true
  | Event.choco_install _ _ => true
  | Event.lookup_deps_command => true
  | _ => false

/-- Events belonging to the Windows Qt-toolkit phase. -/
def isToolkitEvent : Event → Bool
  | Event.lookup_qt_config => true
  | Event.qt_get_install_dir => true
  | Event.qt_install => true
  | Event.qt_set_env_vars => true
  | _ => false

/-- External command executions through the command runner. -/
def isRunEvent : Event → Bool
  | Event.run _ _ => true
  | _ => false

/-! ## Concrete instances used by witnesses and counterexamples -/

/-- A concrete configuration exercising every lookup. -/
def demoConfig : Config where
  qt_config := { version := "6.7.0", install_root := "C:\\Qt", arch := "win64_msvc2019_64" }
  deps_command := "choco install deps.config -y"
  linux_deps_command := fun d =>
    if d = "debian" then some "sudo apt-get install -y foo bar"
    else if d = "fedora" then some "apt-get install -y sudoku"
    else if d = "arch" then some "sudo pacman -S sudo vim"
    else none
  os_deps_value := fun k => if k = "command" then "brew bundle" else ""
  os_value := fun k => if k = "qt-prefix-command" then "brew --prefix qt" else ""
  choco_ci_config :=
    { edit_config := [("cacheLocation", "C:\\choco-cache")], skip_packages := ["qt"] }

/-- Baseline host: no probe matches; variants below override fields. -/
def demoEnv : Env where
  is_windows := false
  is_mac := false
  is_linux := false
  is_running_in_ci := false
  is_admin := false
  linux_distro := none
  has_command := fun _ => true
  qt_install_dir := none

def envUnknown : Env := demoEnv

def envLinuxDebianNoSudo : Env :=
  { demoEnv with is_linux := true, linux_distro := some "debian",
                 has_command := fun _ => false }

def envLinuxDebianSudo : Env :=
  { demoEnv with is_linux := true, linux_distro := some "debian" }

def envLinuxFedoraNoSudo : Env :=
  { demoEnv with is_linux := true, linux_distro := some "fedora",
                 has_command := fun _ => false }

def envLinuxArchNoSudo : Env :=
  { demoEnv with is_linux := true, linux_distro := some "arch",
                 has_command := fun _ => false }

def envLinuxNoDistro : Env :=
  { demoEnv with is_linux := true }

def envLinuxGentoo : Env :=
  { demoEnv with is_linux := true, linux_distro := some "gentoo" }

def envMacInteractive : Env :=
  { demoEnv with is_mac := true }

def envWinNotAdmin : Env :=
  { demoEnv with is_windows := true }

def envWinNotAdminCI : Env :=
  { demoEnv with is_windows := true, is_running_in_ci := true }

def envWinAdmin : Env :=
  { demoEnv with is_windows := true, is_admin := true }

def envWinAdminCI : Env :=
  { demoEnv with is_windows := true, is_admin := true, is_running_in_ci := true }

def envWinAdminQtInstalled : Env :=
  { demoEnv with is_windows := true, is_admin := true,
                 qt_install_dir := some "C:\\Qt\\6.7.0" }

/-! ## Claims -/

/-- Claim C1: `Dependencies.install` dispatches to exactly one platform
strategy, chosen solely by the probed OS family; when no probe matches,
it raises a platform-unsupported error and performs no effect at all (in
particular, no install command is resolved or executed). -/
theorem install_dispatch (cfg : Config) (e : Env) (only : Option String) :
    (e.is_windows = true →
      Dependencies.install cfg e only = Dependencies.windows cfg e only)
  ∧ (e.is_windows = false → e.is_mac = true →
      Dependencies.install cfg e only = Dependencies.mac cfg e)
  ∧ (e.is_windows = false → e.is_mac = false → e.is_linux = true →
      Dependencies.install cfg e only = Dependencies.linux cfg e)
  ∧ (e.is_windows = false → e.is_mac = false → e.is_linux = false →
      (Dependencies.install cfg e only).1 = []
      ∧ (Dependencies.install cfg e only).2 = Outcome.error "Unsupported platform") := by
  refine ⟨?_, ?_, ?_, ?_⟩ <;> intros <;> simp [Dependencies.install, *]

/-- Witness for C1 at concrete hosts: a Linux host dispatches to the
Linux strategy; a host matching no probe yields an empty trace and the
platform-unsupported error. -/
theorem install_dispatch_witness :
    Dependencies.install demoConfig envLinuxDebianNoSudo none
      = Dependencies.linux demoConfig envLinuxDebianNoSudo
  ∧ (Dependencies.install demoConfig envUnknown none).1 = []
  ∧ (Dependencies.install demoConfig envUnknown none).2
      = Outcome.error "Unsupported platform" :=
  ⟨(install_dispatch demoConfig envLinuxDebianNoSudo none).2.2.1 rfl rfl rfl,
   ((install_dispatch demoConfig envUnknown none).2.2.2 rfl rfl rfl).1,
   ((install_dispatch demoConfig envUnknown none).2.2.2 rfl rfl rfl).2⟩

/-- Claim C2: sudo-stripping on Linux.  The specific command
`"sudo apt-get install -y foo bar"` strips to
`"apt-get install -y foo bar"`; in general the stripping branch runs
exactly when the resolved command textually contains `"sudo"` and the
host lacks the `sudo` executable, and otherwise the resolved command is
executed verbatim. -/
theorem linux_sudo_stripping (cfg : Config) (e : Env) (distro cmd : String)
    (hd : e.linux_distro = some distro)
    (hc : cfg.linux_deps_command distro = some cmd) :
    Dependencies.stripSudo "sudo apt-get install -y foo bar" = "apt-get install -y foo bar"
  ∧ (pyContains cmd "sudo" = true → e.has_command "sudo" = false →
      Dependencies.linux cfg e =
        ([Event.lookup_linux_deps_command distro,
          Event.print Dependencies.sudoNotice,
          Event.run (Dependencies.stripSudo cmd) false], Outcome.ok))
  ∧ (pyContains cmd "sudo" = false ∨ e.has_command "sudo" = true →
      Dependencies.linux cfg e =
        ([Event.lookup_linux_deps_command distro,
          Event.run cmd false], Outcome.ok)) := by
  refine ⟨by decide, ?_, ?_⟩
  · intro h1 h2
    simp [Dependencies.linux, hd, hc, h1, h2]
  · rintro (h | h) <;> simp [Dependencies.linux, hd, hc, h]

/-- Witness for C2: on a Debian host whose configured command is
`"sudo apt-get install -y foo bar"`, a host without `sudo` runs the
stripped command and a host with `sudo` runs the command unchanged. -/
theorem linux_sudo_stripping_witness :
    Dependencies.linux demoConfig envLinuxDebianNoSudo =
      ([Event.lookup_linux_deps_command "debian",
        Event.print Dependencies.sudoNotice,
        Event.run "apt-get install -y foo bar" false], Outcome.ok)
  ∧ Dependencies.linux demoConfig envLinuxDebianSudo =
      ([Event.lookup_linux_deps_command "debian",
        Event.run "sudo apt-get install -y foo bar" false], Outcome.ok) :=
  ⟨(linux_sudo_stripping demoConfig envLinuxDebianNoSudo "debian"
      "sudo apt-get install -y foo bar" rfl rfl).2.1 (by decide) rfl,
   (linux_sudo_stripping demoConfig envLinuxDebianSudo "debian"
      "sudo apt-get install -y foo bar" rfl rfl).2.2 (Or.inr rfl)⟩

/-- Claim C5: on Linux, failed distro detection raises before anything
happens (empty trace), and a distro with no configured command raises
`UnsupportedDistroError` after only the failing lookup: in both cases no
external command is ever executed. -/
theorem linux_failure_before_run (cfg : Config) (e : Env) :
    (e.linux_distro = none →
      Dependencies.linux cfg e = ([], Outcome.error "Unable to detect Linux distro"))
  ∧ (∀ distro, e.linux_distro = some distro → cfg.linux_deps_command distro = none →
      Dependencies.linux cfg e =
        ([Event.lookup_linux_deps_command distro], Outcome.error "UnsupportedDistroError")
      ∧ ∀ ev ∈ (Dependencies.linux cfg e).1, isRunEvent ev = false) := by
  constructor
  · intro h
    simp [Dependencies.linux, h]
  · intro distro hd hc
    simp [Dependencies.linux, hd, hc, isRunEvent]

/-- Witness for C5: a Linux host with no detectable distro, and a Gentoo
host for which `demoConfig` has no command. -/
theorem linux_failure_before_run_witness :
    Dependencies.linux demoConfig envLinuxNoDistro
      = ([], Outcome.error "Unable to detect Linux distro")
  ∧ Dependencies.linux demoConfig envLinuxGentoo
      = ([Event.lookup_linux_deps_command "gentoo"], Outcome.error "UnsupportedDistroError") :=
  ⟨(linux_failure_before_run demoConfig envLinuxNoDistro).1 rfl,
   ((linux_failure_before_run demoConfig envLinuxGentoo).2 "gentoo" rfl rfl).1⟩

/-- Claim C6: off Windows the `--only` filter is never read: two runs of
`Dependencies.install` that differ only in the filter perform exactly
the same sequence of lookups and command executions (identical traces
and outcomes) on mac and Linux hosts. -/
theorem filter_ignored_off_windows (cfg : Config) (e : Env) (o1 o2 : Option String)
    (h : e.is_windows = false) :
    Dependencies.install cfg e o1 = Dependencies.install cfg e o2 := by
  simp [Dependencies.install, h]

/-- Witness for C6: a mac host and a Linux host each give identical runs
with filter `"qt"` and with no filter. -/
theorem filter_ignored_off_windows_witness :
    Dependencies.install demoConfig envMacInteractive (some "qt")
      = Dependencies.install demoConfig envMacInteractive none
  ∧ Dependencies.install demoConfig envLinuxDebianNoSudo (some "qt")
      = Dependencies.install demoConfig envLinuxDebianNoSudo none :=
  ⟨filter_ignored_off_windows demoConfig envMacInteractive (some "qt") none rfl,
   filter_ignored_off_windows demoConfig envLinuxDebianNoSudo (some "qt") none rfl⟩

/-- Counterexample to claim C3 as stated: a non-elevated Windows run
with filter `"qt"` relaunches as admin and exits; the toolkit
install-or-skip logic is never invoked in that run. -/
theorem windows_toolkit_only_counterexample :
    ¬ Event.qt_get_install_dir ∈
      (Dependencies.windows demoConfig envWinNotAdmin (some "qt")).1 := by
  decide

/-- Claim C3 (amended with the elevation precondition): in every
elevated Windows run whose filter equals `"qt"`, the toolkit
install-or-skip logic is invoked and the strategy returns successfully
before the package-manager phase: no CI package-manager configuration,
no generic deps-command resolution and no package-manager install
occurs. -/
theorem windows_toolkit_only (cfg : Config) (e : Env) (only : Option String)
    (ha : e.is_admin = true) (ho : only = some "qt") :
    Event.qt_get_install_dir ∈ (Dependencies.windows cfg e only).1
  ∧ (∀ ev ∈ (Dependencies.windows cfg e only).1, isPackageManagerEvent ev = false)
  ∧ (Dependencies.windows cfg e only).2 = Outcome.ok := by
  subst ho
  rcases hq : e.qt_install_dir with _ | d
  · cases hci : e.is_running_in_ci <;>
      simp [Dependencies.windows, ha, hci, hq, isPackageManagerEvent]
  · by_cases hd : d = "" <;>
      cases hci : e.is_running_in_ci <;>
      simp [Dependencies.windows, ha, hci, hq, hd, isPackageManagerEvent]

/-- Witness for C3: an elevated non-CI host with no Qt present. -/
theorem windows_toolkit_only_witness :
    Event.qt_get_install_dir ∈
      (Dependencies.windows demoConfig envWinAdmin (some "qt")).1
  ∧ (∀ ev ∈ (Dependencies.windows demoConfig envWinAdmin (some "qt")).1,
      isPackageManagerEvent ev = false)
  ∧ (Dependencies.windows demoConfig envWinAdmin (some "qt")).2 = Outcome.ok :=
  windows_toolkit_only demoConfig envWinAdmin (some "qt") rfl rfl

/-- Counterexample to claim C4 as stated: a non-elevated CI Windows run
with no filter relaunches as admin and exits; the CI cache configuration
is never applied in that run. -/
theorem windows_ci_mode_counterexample :
    ¬ Event.choco_config_ci_cache ∈
      (Dependencies.windows demoConfig envWinNotAdminCI none).1 := by
  decide

/-- Claim C4 (amended with the elevation precondition): every elevated
Windows CI run without a filter skips the toolkit phase entirely,
applies the CI cache configuration and the CI skip-list edits before
resolving the generic package command, and never sets the permanent
toolkit environment variables reserved for non-CI runs — the trace is
exactly the CI package-manager sequence. -/
theorem windows_ci_mode (cfg : Config) (e : Env)
    (ha : e.is_admin = true) (hci : e.is_running_in_ci = true) :
    Dependencies.windows cfg e none =
      ([Event.choco_config_ci_cache, Event.lookup_choco_ci_config,
        Event.choco_remove_from_config cfg.choco_ci_config.edit_config
          cfg.choco_ci_config.skip_packages,
        Event.lookup_deps_command,
        Event.choco_install cfg.deps_command true], Outcome.ok)
  ∧ (∀ ev ∈ (Dependencies.windows cfg e none).1, isToolkitEvent ev = false) := by
  have h : Dependencies.windows cfg e none =
      ([Event.choco_config_ci_cache, Event.lookup_choco_ci_config,
        Event.choco_remove_from_config cfg.choco_ci_config.edit_config
          cfg.choco_ci_config.skip_packages,
        Event.lookup_deps_command,
        Event.choco_install cfg.deps_command true], Outcome.ok) := by
    simp [Dependencies.windows, ha, hci]
  refine ⟨h, ?_⟩
  rw [h]
  simp [isToolkitEvent]

/-- Witness for C4: an elevated CI host with no filter. -/
theorem windows_ci_mode_witness :
    Dependencies.windows demoConfig envWinAdminCI none =
      ([Event.choco_config_ci_cache, Event.lookup_choco_ci_config,
        Event.choco_remove_from_config [("cacheLocation", "C:\\choco-cache")] ["qt"],
        Event.lookup_deps_command,
        Event.choco_install "choco install deps.config -y" true], Outcome.ok)
  ∧ (∀ ev ∈ (Dependencies.windows demoConfig envWinAdminCI none).1,
      isToolkitEvent ev = false) :=
  windows_ci_mode demoConfig envWinAdminCI rfl rfl

/-- Claim C7: `main` exits 0 when installation returns normally and 1
when it raises an unhandled `Exception`, printing the traceback first;
in both of those cases the pause prompt is reached exactly when
`--pause-on-exit` was requested. -/
theorem main_exit_codes (cfg : Config) (e : Env) (pause_on_exit : Bool) (only : Option String) :
    ((Dependencies.install cfg e only).2 = Outcome.ok →
      (main cfg e pause_on_exit only).exit_code = 0
      ∧ (main cfg e pause_on_exit only).printed_traceback = false
      ∧ (main cfg e pause_on_exit only).paused = pause_on_exit)
  ∧ (∀ msg, (Dependencies.install cfg e only).2 = Outcome.error msg →
      (main cfg e pause_on_exit only).exit_code = 1
      ∧ (main cfg e pause_on_exit only).printed_traceback = true
      ∧ (main cfg e pause_on_exit only).paused = pause_on_exit) := by
  constructor
  · intro h
    simp [main, h]
  · intro msg h
    simp [main, h]

/-- Witness for C7: a successful Linux run exits 0 with the pause
reached; an unsupported-platform run exits 1 after the traceback. -/
theorem main_exit_codes_witness :
    ((main demoConfig envLinuxDebianNoSudo true none).exit_code = 0
      ∧ (main demoConfig envLinuxDebianNoSudo true none).printed_traceback = false
      ∧ (main demoConfig envLinuxDebianNoSudo true none).paused = true)
  ∧ ((main demoConfig envUnknown true none).exit_code = 1
      ∧ (main demoConfig envUnknown true none).printed_traceback = true
      ∧ (main demoConfig envUnknown true none).paused = true) :=
  ⟨(main_exit_codes demoConfig envLinuxDebianNoSudo true none).1 (by decide),
   (main_exit_codes demoConfig envUnknown true none).2 "Unsupported platform" (by decide)⟩

/-- Claim C8: whenever the Windows toolkit step queries the install
directory and Qt reports an existing (non-empty) location, the run
prints the already-installed notice and never invokes the Qt installer;
the strategy being a pure function of its inputs, every repeated run
with the same inputs produces this same skip outcome. -/
theorem windows_qt_skip (cfg : Config) (e : Env) (only : Option String) (d : String)
    (hq : e.qt_install_dir = some d) (hd : d ≠ "")
    (hinv : Event.qt_get_install_dir ∈ (Dependencies.windows cfg e only).1) :
    Event.print ("Skipping Qt, already installed at: " ++ d)
      ∈ (Dependencies.windows cfg e only).1
  ∧ Event.qt_install ∉ (Dependencies.windows cfg e only).1 := by
  cases ha : e.is_admin with
  | false => simp [Dependencies.windows, ha] at hinv
  | true =>
    by_cases ho : only = some "qt" <;>
      cases hci : e.is_running_in_ci <;>
      simp [Dependencies.windows, ha, ho, hci, hq, hd] at hinv ⊢

/-- Witness for C8: an elevated interactive host where Qt reports an
existing install directory. -/
theorem windows_qt_skip_witness :
    Event.print ("Skipping Qt, already installed at: " ++ "C:\\Qt\\6.7.0")
      ∈ (Dependencies.windows demoConfig envWinAdminQtInstalled none).1
  ∧ Event.qt_install ∉ (Dependencies.windows demoConfig envWinAdminQtInstalled none).1 :=
  windows_qt_skip demoConfig envWinAdminQtInstalled none "C:\\Qt\\6.7.0"
    rfl (by decide) (by decide)

/-- Claim C9: a non-elevated Windows run relaunches as admin and calls
the bare `sys.exit()`; the resulting `SystemExit` is not caught by the
`except Exception` handler, so the process exits 0 without printing a
traceback, no further install step runs, and the pause prompt is
bypassed even when `--pause-on-exit` was requested. -/
theorem relaunch_exits_zero (cfg : Config) (e : Env) (pause_on_exit : Bool)
    (only : Option String) (hw : e.is_windows = true) (ha : e.is_admin = false) :
    (main cfg e pause_on_exit only).exit_code = 0
  ∧ (main cfg e pause_on_exit only).paused = false
  ∧ (main cfg e pause_on_exit only).printed_traceback = false
  ∧ (main cfg e pause_on_exit only).events =
      (if e.is_running_in_ci then [Event.print "CI environment detected"] else [])
      ++ [Event.relaunch_as_admin] := by
  have h : Dependencies.install cfg e only = ([Event.relaunch_as_admin], Outcome.exited) := by
    simp [Dependencies.install, Dependencies.windows, hw, ha]
  simp [main, h]

/-- Witness for C9: a non-elevated interactive Windows host with the
pause flag requested. -/
theorem relaunch_exits_zero_witness :
    (main demoConfig envWinNotAdmin true none).exit_code = 0
  ∧ (main demoConfig envWinNotAdmin true none).paused = false
  ∧ (main demoConfig envWinNotAdmin true none).printed_traceback = false
  ∧ (main demoConfig envWinNotAdmin true none).events =
      (if envWinNotAdmin.is_running_in_ci
        then [Event.print "CI environment detected"] else [])
      ++ [Event.relaunch_as_admin] :=
  relaunch_exits_zero demoConfig envWinNotAdmin true none rfl rfl

/-- Claim C10: Linux sudo-stripping is substring-based, not token-based:
whenever `"sudo"` occurs anywhere in the resolved command (also inside a
package name) and the `sudo` executable is absent, the stripping branch
runs and the executed command is the original with every left-to-right
occurrence of the substring `"sudo "` removed and surrounding whitespace
trimmed. -/
theorem sudo_strip_substring (cfg : Config) (e : Env) (distro cmd : String)
    (hd : e.linux_distro = some distro)
    (hc : cfg.linux_deps_command distro = some cmd)
    (hs : pyContains cmd "sudo" = true)
    (hns : e.has_command "sudo" = false) :
    Dependencies.linux cfg e =
      ([Event.lookup_linux_deps_command distro,
        Event.print Dependencies.sudoNotice,
        Event.run (String.mk (trimChars (removeAll cmd.data (("sudo ").data)))) false],
       Outcome.ok) := by
  simp [Dependencies.linux, hd, hc, hs, hns, Dependencies.stripSudo]

/-- Witness for C10: `"apt-get install -y sudoku"` triggers the branch
through the substring inside the package name (and is left intact, since
`"sudo "` with the trailing space never occurs), while
`"sudo pacman -S sudo vim"` loses both occurrences of `"sudo "`. -/
theorem sudo_strip_substring_witness :
    Dependencies.linux demoConfig envLinuxFedoraNoSudo =
      ([Event.lookup_linux_deps_command "fedora",
        Event.print Dependencies.sudoNotice,
        Event.run "apt-get install -y sudoku" false], Outcome.ok)
  ∧ Dependencies.linux demoConfig envLinuxArchNoSudo =
      ([Event.lookup_linux_deps_command "arch",
        Event.print Dependencies.sudoNotice,
        Event.run "pacman -S vim" false], Outcome.ok) :=
  ⟨sudo_strip_substring demoConfig envLinuxFedoraNoSudo "fedora"
      "apt-get install -y sudoku" rfl rfl (by decide) rfl,
   sudo_strip_substring demoConfig envLinuxArchNoSudo "arch"
      "sudo pacman -S sudo vim" rfl rfl (by decide) rfl⟩

end InstallDeps
